import Mathlib

/-!
Verification development for the MOOC resume/recommendation API.

The repository ships a single transport-layer source file, `app.py` (Flask
shell).  The core modules it imports (`models/recommendation_engine.py`,
`models/resume_processor.py`, `models/course_manager.py`, `config.py`) are not
part of the available sources, so the recommendation engine and the resume
processor are modelled from the specification; the HTTP handler,
`allowed_file` and `format_recommendations` are translated directly from
`app.py`.
-/

/-- Modelled from the spec: the experience levels a profile can carry
(`entry`, `mid`, `senior`, `unknown`); `models/resume_processor.py` is not in
the sources. -/
inductive ExperienceLevel where
  | entry
  | mid
  | senior
  | unknown
deriving DecidableEq

/-- Modelled from the spec: a course record of the Course Corpus
(`models/course_manager.py` is not in the sources).  Skill and domain tags
are modelled as numeric identifiers; `rating` is the numeric 0.0-5.0 rating. -/
structure Course where
  course_id : Nat
  course_name : String
  instructor : String
  platform : String
  is_paid : Option Bool
  skills : List Nat
  domain : Nat
  rating : Rat
  enrolled_count : Nat
  level : Option ExperienceLevel
deriving DecidableEq

/-- Modelled from the spec: the structured profile produced by the Resume
Analyzer (`models/resume_processor.py` is not in the sources). -/
structure Profile where
  skills : List Nat
  skill_count : Nat
  experience_level : ExperienceLevel
  domains : List Nat
  education : List String
deriving DecidableEq

/-- Modelled from the spec: a transient recommendation record, a course
reference plus the integer match percentage, reasons, and display fields
frozen at scoring time. -/
structure Recommendation where
  course_id : Nat
  match_percentage : Nat
  match_reasons : List String
  course_name : String
  instructor : String
  platform : String
  is_paid : Option Bool
  rating : Rat
  enrolled_count : Nat
deriving DecidableEq

/-- Modelled from the spec: the number of course skills the candidate already
has, the numerator of the skill-overlap sub-score. -/
def overlapCount (p : Profile) (c : Course) : Nat :=
  (c.skills.filter (fun s => decide (s ∈ p.skills))).length

/-- Modelled from the spec: the denominator floor `max 1 (number of course
skills)` of the skill-overlap sub-score. -/
def overlapDen (c : Course) : Nat := max 1 c.skills.length

/-- Modelled from the spec: domain affinity indicator, 1 when the course
domain is among the profile domains, else 0 (no proximity table exists). -/
def domainHit (p : Profile) (c : Course) : Nat :=
  if c.domain ∈ p.domains then 1 else 0

/-- Numeric index of an experience level; `unknown` has none. -/
def levelIdx : ExperienceLevel → Option Nat
  | .entry => some 0
  | .mid => some 1
  | .senior => some 2
  | .unknown => none

/-- Modelled from the spec: twice the experience-fit sub-score, kept integral
(exact match 2, adjacent level 1, mismatched or unknown 0). -/
def expFit2 (pl : ExperienceLevel) (cl : Option ExperienceLevel) : Nat :=
  match levelIdx pl, cl.bind levelIdx with
  | some a, some b => if a = b then 2 else if a + 1 = b ∨ b + 1 = a then 1 else 0
  | _, _ => 0

/-- Numerator of `100 · (weighted sum of the sub-scores)` over the common
denominator `2 · overlapDen c`: the weights are 0.6, 0.25 and 0.15, so
`100·w = (120·overlap + 50·domainHit·m + 15·expFit2·m) / (2·m)` with
`m = overlapDen c`.  `weightedScore_frac` below proves this identity against
the rational weighted sum written exactly as in the spec. -/
def scoreNum (p : Profile) (c : Course) : Nat :=
  120 * overlapCount p c + 50 * domainHit p c * overlapDen c
    + 15 * expFit2 p.experience_level c.level * overlapDen c

/-- Common denominator of the scaled weighted sum. -/
def scoreDen (c : Course) : Nat := 2 * overlapDen c

/-- Modelled from the spec: the integer match percentage: the weighted sum of
the sub-scores, normalized to 0-100 by rounding to the nearest integer
(halves up, `(2·num + den) / (2·den)` is exactly `round (num / den)` for
non-negative fractions) and clamped to the range (the lower clamp is the Nat
type, the upper clamp is `min 100`).  `matchPct_eq_round_clamp` below proves
it equal to `max 0 (min 100 (round (100 * weightedScore p c)))`. -/
def matchPct (p : Profile) (c : Course) : Nat :=
  min 100 ((2 * scoreNum p c + scoreDen c) / (2 * scoreDen c))

/-- Skill-overlap sub-score as written in the spec:
`|profile.skills ∩ c.skills| / max 1 |c.skills|`. -/
def skillOverlapScore (p : Profile) (c : Course) : Rat :=
  (overlapCount p c : Rat) / (overlapDen c : Rat)

/-- Domain-affinity sub-score as written in the spec: 1.0 when the course
domain is among the profile domains, else 0. -/
def domainAffinityScore (p : Profile) (c : Course) : Rat :=
  if c.domain ∈ p.domains then 1 else 0

/-- Experience-fit sub-score as written in the spec: exact match 1.0,
adjacent level 0.5, mismatched or unknown 0. -/
def expFitScore (pl : ExperienceLevel) (cl : Option ExperienceLevel) : Rat :=
  match levelIdx pl, cl.bind levelIdx with
  | some a, some b => if a = b then 1 else if a + 1 = b ∨ b + 1 = a then (1 : Rat)/2 else 0
  | _, _ => 0

/-- The weighted sum of the sub-scores with the spec weights 0.6 / 0.25 /
0.15. -/
def weightedScore (p : Profile) (c : Course) : Rat :=
  6/10 * skillOverlapScore p c + 25/100 * domainAffinityScore p c
    + 15/100 * expFitScore p.experience_level c.level

theorem domainAffinityScore_eq (p : Profile) (c : Course) :
    domainAffinityScore p c = (domainHit p c : Rat) := by
  unfold domainAffinityScore domainHit
  split <;> simp

theorem expFitScore_eq (pl : ExperienceLevel) (cl : Option ExperienceLevel) :
    expFitScore pl cl = (expFit2 pl cl : Rat) / 2 := by
  unfold expFitScore expFit2
  cases hp : levelIdx pl <;> cases hc : cl.bind levelIdx <;> simp
  split_ifs <;> norm_num

theorem overlapDen_pos (c : Course) : 0 < overlapDen c :=
  Nat.lt_of_lt_of_le Nat.zero_lt_one (le_max_left 1 _)

theorem weightedScore_frac (p : Profile) (c : Course) :
    100 * weightedScore p c = (scoreNum p c : Rat) / (scoreDen c : Rat) := by
  have hm : ((overlapDen c : Rat)) ≠ 0 := by
    have h := overlapDen_pos c
    exact_mod_cast Nat.pos_iff_ne_zero.mp h
  unfold weightedScore skillOverlapScore scoreNum scoreDen
  rw [domainAffinityScore_eq, expFitScore_eq]
  push_cast
  field_simp
  ring

theorem round_nat_div (N D : Nat) (hD : 0 < D) :
    round ((N : Rat) / (D : Rat)) = (((2 * N + D) / (2 * D) : Nat) : Int) := by
  have hD0 : ((D : Rat)) ≠ 0 := by exact_mod_cast Nat.pos_iff_ne_zero.mp hD
  rw [round_eq]
  have key : (N : Rat) / (D : Rat) + 1/2
      = (((2 * N + D : Nat) : Int) : Rat) / ((2 * D : Nat) : Rat) := by
    push_cast
    field_simp
    ring
  rw [key, Rat.floor_intCast_div_natCast]
  exact_mod_cast (Int.ofNat_ediv (2 * N + D) (2 * D)).symm

theorem scoreDen_pos (c : Course) : 0 < scoreDen c := by
  have h := overlapDen_pos c
  unfold scoreDen
  omega

theorem matchPct_eq_round_clamp (p : Profile) (c : Course) :
    ((matchPct p c : Nat) : Int) = max 0 (min 100 (round (100 * weightedScore p c))) := by
  rw [weightedScore_frac, round_nat_div _ _ (scoreDen_pos c)]
  unfold matchPct
  have h0 : (0 : Int) ≤ min 100 (((2 * scoreNum p c + scoreDen c) / (2 * scoreDen c) : Nat) : Int) :=
    le_min (by norm_num) (Int.ofNat_nonneg _)
  rw [max_eq_right h0]
  push_cast [Nat.cast_min]
  rfl

/-- Modelled from the spec: the ranking order of §3, a recommendation may
come before another when its match percentage is higher, or on ties its
rating is higher, then its enrolled count higher, then its course id not
larger. -/
def recBefore (r1 r2 : Recommendation) : Prop :=
  r2.match_percentage < r1.match_percentage ∨
    (r1.match_percentage = r2.match_percentage ∧
      (r2.rating < r1.rating ∨
        (r1.rating = r2.rating ∧
          (r2.enrolled_count < r1.enrolled_count ∨
            (r1.enrolled_count = r2.enrolled_count ∧ r1.course_id ≤ r2.course_id)))))

instance : DecidableRel recBefore := fun a b => by
  unfold recBefore
  exact inferInstance

theorem recBefore_total (a b : Recommendation) : recBefore a b ∨ recBefore b a := by
  unfold recBefore
  rcases Nat.lt_trichotomy a.match_percentage b.match_percentage with h | h | h
  · exact Or.inr (Or.inl h)
  · rcases lt_trichotomy a.rating b.rating with h2 | h2 | h2
    · exact Or.inr (Or.inr ⟨h.symm, Or.inl h2⟩)
    · rcases Nat.lt_trichotomy a.enrolled_count b.enrolled_count with h3 | h3 | h3
      · exact Or.inr (Or.inr ⟨h.symm, Or.inr ⟨h2.symm, Or.inl h3⟩⟩)
      · rcases Nat.le_total a.course_id b.course_id with h4 | h4
        · exact Or.inl (Or.inr ⟨h, Or.inr ⟨h2, Or.inr ⟨h3, h4⟩⟩⟩)
        · exact Or.inr (Or.inr ⟨h.symm, Or.inr ⟨h2.symm, Or.inr ⟨h3.symm, h4⟩⟩⟩)
      · exact Or.inl (Or.inr ⟨h, Or.inr ⟨h2, Or.inl h3⟩⟩)
    · exact Or.inl (Or.inr ⟨h, Or.inl h2⟩)
  · exact Or.inl (Or.inl h)

theorem recBefore_trans (a b c : Recommendation)
    (hab : recBefore a b) (hbc : recBefore b c) : recBefore a c := by
  unfold recBefore at hab hbc ⊢
  rcases hab with h1 | ⟨e1, hab⟩
  · rcases hbc with h2 | ⟨e2, _⟩
    · exact Or.inl (h2.trans h1)
    · exact Or.inl (by omega)
  · rcases hbc with h2 | ⟨e2, hbc⟩
    · exact Or.inl (by omega)
    · refine Or.inr ⟨e1.trans e2, ?_⟩
      rcases hab with g1 | ⟨f1, hab⟩
      · rcases hbc with g2 | ⟨f2, _⟩
        · exact Or.inl (g2.trans g1)
        · exact Or.inl (by rw [← f2]; exact g1)
      · rcases hbc with g2 | ⟨f2, hbc⟩
        · exact Or.inl (by rw [f1]; exact g2)
        · refine Or.inr ⟨f1.trans f2, ?_⟩
          rcases hab with k1 | ⟨j1, hab⟩
          · rcases hbc with k2 | ⟨j2, _⟩
            · exact Or.inl (by omega)
            · exact Or.inl (by omega)
          · rcases hbc with k2 | ⟨j2, hbc⟩
            · exact Or.inl (by omega)
            · exact Or.inr ⟨by omega, by omega⟩

instance : IsTotal Recommendation recBefore := ⟨recBefore_total⟩

instance : IsTrans Recommendation recBefore := ⟨recBefore_trans⟩

/-- Ordering on contribution-tagged reasons: larger contribution first. -/
def reasonGE (a b : Nat × String) : Prop := b.1 ≤ a.1

instance : DecidableRel reasonGE := fun a b => Nat.decLe b.1 a.1

/-- Modelled from the spec: match reasons generated deterministically from
the non-zero sub-scores, ordered by the size of the contribution of the
underlying sub-score (the contributions are compared in the common scaled
units of scoreNum) and capped at 3. -/
def matchReasons (p : Profile) (c : Course) : List String :=
  let i := overlapCount p c
  let d := domainHit p c
  let e := expFit2 p.experience_level c.level
  let parts : List (Nat × String) :=
    (if 0 < i then [(120 * i, "Matches " ++ Nat.repr i ++ " of your skills")] else []) ++
      (if 0 < d then [(50 * d * overlapDen c, "Aligned with your domain")] else []) ++
      (if 0 < e then [(15 * e * overlapDen c, "Fits your experience level")] else [])
  ((List.insertionSort reasonGE parts).map Prod.snd).take 3

/-- Modelled from the spec: score one course against the profile, producing
the transient recommendation with display fields frozen at scoring time. -/
def scoreCourse (p : Profile) (c : Course) : Recommendation :=
  ⟨c.course_id, matchPct p c, matchReasons p c, c.course_name, c.instructor, c.platform,
    c.is_paid, c.rating, c.enrolled_count⟩

/-- Modelled from the spec: the engine scores every course of the corpus,
excludes courses at the zero floor, sorts the rest by the §3 tie-break order
and truncates to top_k (`models/recommendation_engine.py` is not in the
sources). -/
def recommend (p : Profile) (C : List Course) (k : Nat) : List Recommendation :=
  List.take k
    (List.insertionSort recBefore
      ((C.map (scoreCourse p)).filter (fun r => decide (0 < r.match_percentage))))

theorem recBefore_imp (a b : Recommendation) (h : recBefore a b) :
    b.match_percentage ≤ a.match_percentage ∧
      (a.match_percentage = b.match_percentage →
        b.rating ≤ a.rating ∧
          (a.rating = b.rating →
            b.enrolled_count ≤ a.enrolled_count ∧
              (a.enrolled_count = b.enrolled_count → a.course_id ≤ b.course_id))) := by
  unfold recBefore at h
  rcases h with h1 | ⟨e1, h⟩
  · exact ⟨Nat.le_of_lt h1, fun e => absurd e (by omega)⟩
  · refine ⟨le_of_eq e1.symm, fun _ => ?_⟩
    rcases h with h2 | ⟨e2, h⟩
    · exact ⟨le_of_lt h2, fun e => absurd e (ne_of_gt h2)⟩
    · refine ⟨le_of_eq e2.symm, fun _ => ?_⟩
      rcases h with h3 | ⟨e3, h4⟩
      · exact ⟨Nat.le_of_lt h3, fun e => absurd e (by omega)⟩
      · exact ⟨le_of_eq e3.symm, fun _ => h4⟩

/-- C1: for every profile `p`, corpus `C` and `k`, the sequence returned by
`recommend p C k` is sorted descending by match percentage, with ties broken
by descending rating, then descending enrolled count, then ascending course
id: for any two returned recommendations `r1` before `r2`,
`r2.match_percentage ≤ r1.match_percentage`, and on equality the tie-break
chain holds. -/
theorem recommend_ranking_order (p : Profile) (C : List Course) (k : Nat) :
    List.Pairwise (fun r1 r2 : Recommendation =>
      r2.match_percentage ≤ r1.match_percentage ∧
        (r1.match_percentage = r2.match_percentage →
          r2.rating ≤ r1.rating ∧
            (r1.rating = r2.rating →
              r2.enrolled_count ≤ r1.enrolled_count ∧
                (r1.enrolled_count = r2.enrolled_count → r1.course_id ≤ r2.course_id))))
      (recommend p C k) := by
  have hs : List.Pairwise recBefore
      (List.insertionSort recBefore
        ((C.map (scoreCourse p)).filter (fun r => decide (0 < r.match_percentage)))) :=
    List.sorted_insertionSort recBefore _
  have ht : List.Pairwise recBefore (recommend p C k) :=
    List.Pairwise.sublist (List.take_sublist k _) hs
  exact ht.imp (fun h => recBefore_imp _ _ h)

/-- C2: for every profile and course the match percentage is the weighted
sum of the sub-scores rounded (not truncated) to an integer and clamped to
the range 0-100 (the percentage is a `Nat`, so the lower bound holds by
type), and every recommendation ever returned has match percentage at most
100. -/
theorem match_percentage_rounded_clamped :
    (∀ (p : Profile) (c : Course),
      ((scoreCourse p c).match_percentage : Int)
        = max 0 (min 100 (round (100 * weightedScore p c)))) ∧
    (∀ (p : Profile) (C : List Course) (k : Nat) (r : Recommendation),
      r ∈ recommend p C k → r.match_percentage ≤ 100) := by
  constructor
  · intro p c
    exact matchPct_eq_round_clamp p c
  · intro p C k r hr
    have h1 : r ∈ List.insertionSort recBefore
        ((C.map (scoreCourse p)).filter (fun r => decide (0 < r.match_percentage))) :=
      (List.take_sublist k _).subset hr
    have h2 : r ∈ (C.map (scoreCourse p)).filter (fun r => decide (0 < r.match_percentage)) :=
      (List.perm_insertionSort recBefore _).mem_iff.mp h1
    have h3 : r ∈ C.map (scoreCourse p) := List.mem_of_mem_filter h2
    rcases List.mem_map.mp h3 with ⟨c, _, rfl⟩
    exact min_le_left _ _

/-- Concrete profile used by the closed witnesses. -/
def profileW : Profile := ⟨[1, 2], 2, .mid, [7], []⟩

/-- Concrete course used by the closed witnesses. -/
def courseW : Course :=
  ⟨1, "a", "b", "c", some true, [1, 2, 3], 7, mkRat 9 2, 1000, some .entry⟩

/-- Witness for C2: a returned recommendation at a concrete profile and
corpus, with its match percentage within the bound. -/
theorem match_percentage_rounded_clamped_witness :
    scoreCourse profileW courseW ∈ recommend profileW [courseW] 10 ∧
      (scoreCourse profileW courseW).match_percentage ≤ 100 :=
  ⟨by decide, match_percentage_rounded_clamped.2 profileW [courseW] 10 _ (by decide)⟩

/-- C3: two calls of `recommend` on identical inputs return identical
ordered output; in this purely functional embedding the result is a function
of the arguments alone. -/
theorem recommend_deterministic (p₁ p₂ : Profile) (C₁ C₂ : List Course) (k₁ k₂ : Nat)
    (hp : p₁ = p₂) (hC : C₁ = C₂) (hk : k₁ = k₂) :
    recommend p₁ C₁ k₁ = recommend p₂ C₂ k₂ := by
  subst hp
  subst hC
  subst hk
  rfl

/-- Witness for C3 at a concrete profile, corpus and k. -/
theorem recommend_deterministic_witness :
    recommend profileW [courseW] 10 = recommend profileW [courseW] 10 :=
  recommend_deterministic profileW profileW [courseW] [courseW] 10 10 rfl rfl rfl

/-- C4: the engine returns at most `k` recommendations, and `k = 0` yields
the empty sequence. -/
theorem recommend_bounded_output (p : Profile) (C : List Course) (k : Nat) :
    (recommend p C k).length ≤ k ∧ recommend p C 0 = [] := by
  constructor
  · unfold recommend
    rw [List.length_take]
    exact min_le_left _ _
  · rfl

/-- C5: an empty corpus yields the empty recommendation list (the engine is
a total function, so no error is possible). -/
theorem recommend_empty_corpus (p : Profile) (k : Nat) : recommend p [] k = [] := by
  simp [recommend]

/-- Modelled from the spec: the allowed upload extensions of `config.py`
(not in the sources); the spec and the handler error message fix them to PDF
and DOCX. -/
def ALLOWED_EXTENSIONS : List (List Char) := [['p', 'd', 'f'], ['d', 'o', 'c', 'x']]

/-- The characters after the last '.' of the filename, the Python
`rsplit` at the last dot; only meaningful when the filename contains a dot
(in `allowed_file` the conjunction guards the access exactly as the
short-circuit `and` does in `app.py`). -/
def afterLastDot : List Char → List Char
  | [] => []
  | c :: cs => if '.' ∈ cs then afterLastDot cs else if c = '.' then cs else afterLastDot cs

/-- Translated from `app.py` (`allowed_file`): the filename contains a '.'
and the lower-cased substring after the last '.' is an allowed extension. -/
def allowed_file (filename : List Char) : Bool :=
  decide ('.' ∈ filename) &&
    decide ((afterLastDot filename).map Char.toLower ∈ ALLOWED_EXTENSIONS)

/-- A raw recommendation record as the handler receives it from the engine:
a Python dict in which any field may be missing.  Numeric payloads are
modelled as integers and the rating as a rational. -/
structure RecRecord where
  course_id : Option String
  course_name : Option String
  instructor : Option String
  course_rating : Option Rat
  platform : Option String
  is_paid : Option String
  number_of_student_enrolled : Option Int
  match_percentage : Option Nat
  match_reasons : Option (List String)
  sources : Option (List String)
deriving DecidableEq

/-- One formatted API recommendation, exactly the ten keys built by
`format_recommendations` in `app.py`. -/
structure FormattedRec where
  course_id : String
  course_name : String
  instructor : String
  rating : Rat
  platform : String
  is_paid : String
  enrolled : Int
  match_percentage : Nat
  match_reasons : List String
  sources : List String
deriving DecidableEq

/-- Translated from `app.py`: one entry of the formatted response;
`rec.get(key, default)` is the `Option.getD` of the corresponding field
(`int(...)` on the already-integral enrolled count is the identity). -/
def formatRec (rec : RecRecord) : FormattedRec :=
  ⟨rec.course_id.getD (""), rec.course_name.getD ("Unknown Course"),
    rec.instructor.getD ("Unknown"), rec.course_rating.getD 0,
    rec.platform.getD ("Unknown"), rec.is_paid.getD ("Unknown"),
    rec.number_of_student_enrolled.getD 0, rec.match_percentage.getD 0,
    rec.match_reasons.getD [], rec.sources.getD []⟩

/-- Translated from `app.py` (`format_recommendations`): the loop appends
one formatted entry per input record, in order. -/
def format_recommendations (recs : List RecRecord) : List FormattedRec :=
  recs.map formatRec

/-- Modelled from the spec: the analysis dict produced by the resume
processor (not in the sources): skills, skill count, experience level,
domains and education, the keys the handler reads. -/
structure ResumeAnalysis where
  skills : List String
  skill_count : Nat
  experience_level : String
  domains : List String
  education : List String
deriving DecidableEq

/-- The analysis block of a successful upload response, translated from
`app.py`: the skills list is truncated to 20 entries, every other field
passes through — including `skill_count`. -/
def buildAnalysisOut (a : ResumeAnalysis) : ResumeAnalysis :=
  ⟨a.skills.take 20, a.skill_count, a.experience_level, a.domains, a.education⟩

/-- Modelled from the spec: how a `process_resume` call can end.  The spec
failure taxonomy has the two kinds `UnreadableDocument` and `AnalysisFailed`;
the handler in `app.py` observes either as a falsy return value, and a
raised exception lands in its `except` block. -/
inductive ProcessOutcome where
  | ok (a : ResumeAnalysis)
  | unreadableDocument
  | analysisFailed
  | raised (msg : String)
deriving DecidableEq

/-- The value `analysis` the handler sees: both failure kinds are falsy
(`none`), a raised exception is the error case. -/
def processReturn : ProcessOutcome → Except String (Option ResumeAnalysis)
  | .ok a => .ok (some a)
  | .unreadableDocument => .ok none
  | .analysisFailed => .ok none
  | .raised m => .error m

/-- The multipart request as the handler checks it: whether a resume field
is present, and the submitted filename. -/
structure UploadRequest where
  hasResumeField : Bool
  filename : List Char
deriving DecidableEq

deriving instance DecidableEq for Except

/-- Outcomes of the effectful steps inside the try-block: whether the file
save raises, how `process_resume` ends, and whether `get_recommendations`
raises. -/
structure StepBehavior where
  saveRaises : Option String
  processOutcome : ProcessOutcome
  recsOutcome : Except String (List RecRecord)
deriving DecidableEq

/-- A JSON response body of the handler. -/
inductive ResponseBody where
  | err (msg : String)
  | success (analysis : ResumeAnalysis) (recommendations : List FormattedRec) (total : Nat)
deriving DecidableEq

/-- The Python cleanup step (`os.remove` guarded by `os.path.exists`): after
it the file is not on disk. -/
def cleanupFile (present : Bool) : Bool := if present then false else present

/-- Result of one handler invocation: HTTP status, JSON body, whether the
file save ever completed, and whether the saved file is still on disk when
the handler returns. -/
structure HandlerResult where
  status : Nat
  body : ResponseBody
  fileSaved : Bool
  fileOnDisk : Bool
deriving DecidableEq

/-- Translated from `app.py` (`upload_resume`): field, filename and
extension validation, save, process, recommend, cleanup on every exit path,
response shaping.  The two falsy processor outcomes are modelled from the
spec (the processor source is absent); everything else mirrors the handler
line by line. -/
def uploadResume (req : UploadRequest) (beh : StepBehavior) : HandlerResult :=
  if req.hasResumeField = false then
    ⟨400, .err ("No file uploaded"), false, false⟩
  else if req.filename = [] then
    ⟨400, .err ("No file selected"), false, false⟩
  else if allowed_file req.filename = false then
    ⟨400, .err ("Invalid file type. Please upload PDF or DOCX"), false, false⟩
  else
    match beh.saveRaises with
    | some m => ⟨500, .err ("An error occurred: " ++ m), false, cleanupFile false⟩
    | none =>
      match processReturn beh.processOutcome with
      | .error m => ⟨500, .err ("An error occurred: " ++ m), true, cleanupFile true⟩
      | .ok none =>
        ⟨400, .err ("Failed to process resume. Please ensure it is a valid PDF or DOCX file"),
          true, cleanupFile true⟩
      | .ok (some a) =>
        match beh.recsOutcome with
        | .error m => ⟨500, .err ("An error occurred: " ++ m), true, cleanupFile true⟩
        | .ok recs =>
          ⟨200, .success (buildAnalysisOut a) (format_recommendations recs) recs.length,
            true, cleanupFile true⟩

/-- An analysis with 21 extracted skills, as the resume processor would
report it (its invariant sets `skill_count` to the number of skills). -/
def analysis21 : ResumeAnalysis :=
  ⟨(List.range 21).map Nat.repr, 21, "senior", [], []⟩

/-- A request that passes every validation. -/
def requestW : UploadRequest := ⟨true, ['r', '.', 'p', 'd', 'f']⟩

/-- C6 counterexample: a successful upload response in which
`analysis.skill_count` is 21 while the `analysis.skills` list of that same
response has 20 entries — the handler truncates `skills` to 20 but passes
`skill_count` through untouched. -/
theorem skill_count_mismatch :
    (uploadResume requestW ⟨none, .ok analysis21, .ok []⟩).status = 200 ∧
      (uploadResume requestW ⟨none, .ok analysis21, .ok []⟩).body
        = .success (buildAnalysisOut analysis21) [] 0 ∧
      (buildAnalysisOut analysis21).skill_count = 21 ∧
      (buildAnalysisOut analysis21).skills.length = 20 := by
  refine ⟨by decide, by decide, by decide, by decide⟩

/-- C6 amended: the response's `skill_count` equals the analysis's own
`skill_count` field, while the response's `skills` list is truncated to 20
entries; the two agree exactly when the processor invariant
`skill_count = len(skills)` holds and the analysis has at most 20 skills. -/
theorem skill_count_matches_when_few (a : ResumeAnalysis)
    (h1 : a.skill_count = a.skills.length) (h2 : a.skills.length ≤ 20) :
    (buildAnalysisOut a).skill_count = (buildAnalysisOut a).skills.length := by
  unfold buildAnalysisOut
  simp only [List.length_take]
  omega

/-- Witness for the amended C6 at a concrete two-skill analysis. -/
theorem skill_count_matches_when_few_witness :
    (buildAnalysisOut ⟨["python", "sql"], 2, "mid", [], []⟩).skill_count
      = (buildAnalysisOut ⟨["python", "sql"], 2, "mid", [], []⟩).skills.length :=
  skill_count_matches_when_few ⟨["python", "sql"], 2, "mid", [], []⟩ (by decide) (by decide)

/-- C7 counterexample: the handler returns the identical generic 400
response for an unreadable document and for a parsed document with no
usable signal, so the caller cannot distinguish the two failure kinds. -/
theorem analysis_failure_indistinguishable :
    uploadResume requestW ⟨none, .unreadableDocument, .ok []⟩
        = uploadResume requestW ⟨none, .analysisFailed, .ok []⟩ ∧
      (uploadResume requestW ⟨none, .analysisFailed, .ok []⟩).status = 400 := by
  refine ⟨by decide, by decide⟩

/-- C7 amended: a document that parses but yields no usable signal is
surfaced as a user-input 400 error, but with the same generic message as an
unreadable document, so the two kinds are not distinguishable by the
caller. -/
theorem analysis_failed_generic_400 (req : UploadRequest) (beh : StepBehavior)
    (h1 : req.hasResumeField = true) (h2 : req.filename ≠ [])
    (h3 : allowed_file req.filename = true) (h4 : beh.saveRaises = none)
    (h5 : beh.processOutcome = .analysisFailed ∨ beh.processOutcome = .unreadableDocument) :
    uploadResume req beh
      = ⟨400, .err ("Failed to process resume. Please ensure it is a valid PDF or DOCX file"),
          true, false⟩ := by
  rcases h5 with h5 | h5 <;>
    simp [uploadResume, h1, h2, h3, h4, h5, processReturn, cleanupFile]

/-- Witness for the amended C7 at a concrete request and step behavior. -/
theorem analysis_failed_generic_400_witness :
    uploadResume requestW ⟨none, .analysisFailed, .ok []⟩
      = ⟨400, .err ("Failed to process resume. Please ensure it is a valid PDF or DOCX file"),
          true, false⟩ :=
  analysis_failed_generic_400 requestW ⟨none, .analysisFailed, .ok []⟩ rfl (by decide)
    (by decide) rfl (Or.inl rfl)

/-- C8: on every path of the upload handler — validation rejection, failed
save, falsy analysis, raised exception, success — the uploaded document is
not on disk when the handler returns: every exit path removes it. -/
theorem upload_file_always_removed (req : UploadRequest) (beh : StepBehavior) :
    (uploadResume req beh).fileOnDisk = false := by
  rcases beh with ⟨sr, po, ro⟩
  rcases sr with _ | m
  all_goals rcases po with a | _ | _ | m2
  all_goals rcases ro with m3 | recs
  all_goals unfold uploadResume
  all_goals split_ifs <;> rfl

/-- C9: `format_recommendations` preserves length and order, and each of the
ten output keys falls back to its fixed default when the corresponding input
field is missing. -/
theorem format_recommendations_shape :
    (∀ recs : List RecRecord, (format_recommendations recs).length = recs.length) ∧
    (∀ (recs : List RecRecord) (i : Nat),
      (format_recommendations recs)[i]? = recs[i]?.map formatRec) ∧
    (∀ rec : RecRecord,
      (rec.course_id = none → (formatRec rec).course_id = "") ∧
      (rec.course_name = none → (formatRec rec).course_name = "Unknown Course") ∧
      (rec.instructor = none → (formatRec rec).instructor = "Unknown") ∧
      (rec.course_rating = none → (formatRec rec).rating = 0) ∧
      (rec.platform = none → (formatRec rec).platform = "Unknown") ∧
      (rec.is_paid = none → (formatRec rec).is_paid = "Unknown") ∧
      (rec.number_of_student_enrolled = none → (formatRec rec).enrolled = 0) ∧
      (rec.match_percentage = none → (formatRec rec).match_percentage = 0) ∧
      (rec.match_reasons = none → (formatRec rec).match_reasons = []) ∧
      (rec.sources = none → (formatRec rec).sources = [])) := by
  refine ⟨?_, ?_, ?_⟩
  · intro recs
    simp [format_recommendations]
  · intro recs i
    simp [format_recommendations]
  · intro rec
    refine ⟨?_, ?_, ?_, ?_, ?_, ?_, ?_, ?_, ?_, ?_⟩ <;> intro h <;> simp [formatRec, h]

/-- A record with every field missing. -/
def recNone : RecRecord := ⟨none, none, none, none, none, none, none, none, none, none⟩

/-- Witness for C9 at the all-missing record. -/
theorem format_recommendations_shape_witness :
    (format_recommendations [recNone]).length = [recNone].length ∧
      (formatRec recNone).course_id = "" ∧
      (formatRec recNone).course_name = "Unknown Course" ∧
      (formatRec recNone).instructor = "Unknown" ∧
      (formatRec recNone).rating = 0 ∧
      (formatRec recNone).platform = "Unknown" ∧
      (formatRec recNone).is_paid = "Unknown" ∧
      (formatRec recNone).enrolled = 0 ∧
      (formatRec recNone).match_percentage = 0 ∧
      (formatRec recNone).match_reasons = [] ∧
      (formatRec recNone).sources = [] :=
  ⟨format_recommendations_shape.1 [recNone],
    (format_recommendations_shape.2.2 recNone).1 rfl,
    (format_recommendations_shape.2.2 recNone).2.1 rfl,
    (format_recommendations_shape.2.2 recNone).2.2.1 rfl,
    (format_recommendations_shape.2.2 recNone).2.2.2.1 rfl,
    (format_recommendations_shape.2.2 recNone).2.2.2.2.1 rfl,
    (format_recommendations_shape.2.2 recNone).2.2.2.2.2.1 rfl,
    (format_recommendations_shape.2.2 recNone).2.2.2.2.2.2.1 rfl,
    (format_recommendations_shape.2.2 recNone).2.2.2.2.2.2.2.1 rfl,
    (format_recommendations_shape.2.2 recNone).2.2.2.2.2.2.2.2.1 rfl,
    (format_recommendations_shape.2.2 recNone).2.2.2.2.2.2.2.2.2 rfl⟩

theorem afterLastDot_append (pre suf : List Char) (h : '.' ∉ suf) :
    afterLastDot (pre ++ '.' :: suf) = suf := by
  induction pre with
  | nil => simp [afterLastDot, h]
  | cons c cs ih =>
    have hmem : '.' ∈ cs ++ '.' :: suf := List.mem_append_right _ (List.mem_cons_self _ _)
    simp [afterLastDot, hmem, ih]

theorem exists_last_dot (fn : List Char) (h : '.' ∈ fn) :
    ∃ pre suf, fn = pre ++ '.' :: suf ∧ '.' ∉ suf := by
  induction fn with
  | nil => cases h
  | cons c cs ih =>
    by_cases hc : '.' ∈ cs
    · rcases ih hc with ⟨pre, suf, heq, hns⟩
      exact ⟨c :: pre, suf, by rw [heq]; rfl, hns⟩
    · have hcd : c = '.' := by
        rcases List.mem_cons.mp h with h1 | h1
        · exact h1.symm
        · exact absurd h1 hc
      exact ⟨[], cs, by rw [hcd]; rfl, hc⟩

/-- C10: `allowed_file` accepts exactly the filenames containing a dot whose
lower-cased substring after the last dot is an allowed extension (so the
check is case-insensitive and a dotless filename is always rejected), and
the upload handler refuses a rejected filename with the 400 invalid-type
error without ever saving the file. -/
theorem allowed_file_spec :
    (∀ fn : List Char,
      allowed_file fn = true ↔
        ∃ pre suf, fn = pre ++ '.' :: suf ∧ '.' ∉ suf ∧
          suf.map Char.toLower ∈ ALLOWED_EXTENSIONS) ∧
    (∀ (req : UploadRequest) (beh : StepBehavior),
      req.hasResumeField = true → req.filename ≠ [] →
      allowed_file req.filename = false →
      uploadResume req beh
        = ⟨400, .err ("Invalid file type. Please upload PDF or DOCX"), false, false⟩) := by
  constructor
  · intro fn
    constructor
    · intro h
      unfold allowed_file at h
      rw [Bool.and_eq_true, decide_eq_true_eq, decide_eq_true_eq] at h
      rcases h with ⟨hdot, hext⟩
      rcases exists_last_dot fn hdot with ⟨pre, suf, heq, hns⟩
      refine ⟨pre, suf, heq, hns, ?_⟩
      rw [heq, afterLastDot_append pre suf hns] at hext
      exact hext
    · rintro ⟨pre, suf, rfl, hns, hmem⟩
      unfold allowed_file
      rw [Bool.and_eq_true, decide_eq_true_eq, decide_eq_true_eq]
      refine ⟨List.mem_append_right _ (List.mem_cons_self _ _), ?_⟩
      rw [afterLastDot_append pre suf hns]
      exact hmem
  · intro req beh h1 h2 h3
    simp [uploadResume, h1, h2, h3]

/-- Witness for C10: a mixed-case extension is accepted; a dotless filename
is refused with the invalid-type 400 response and the file is never saved. -/
theorem allowed_file_spec_witness :
    allowed_file ['a', '.', 'P', 'D', 'F'] = true ∧
      uploadResume ⟨true, ['p', 'd', 'f']⟩ ⟨none, .analysisFailed, .ok []⟩
        = ⟨400, .err ("Invalid file type. Please upload PDF or DOCX"), false, false⟩ :=
  ⟨(allowed_file_spec.1 ['a', '.', 'P', 'D', 'F']).mpr
      ⟨['a'], ['P', 'D', 'F'], rfl, by decide, by decide⟩,
    allowed_file_spec.2 ⟨true, ['p', 'd', 'f']⟩ ⟨none, .analysisFailed, .ok []⟩ rfl
      (by decide) (by decide)⟩
